import Mathlib

/-!
Verification development for the LexiScope server (src/server/index.ts,
src/unnamed/part_001) and its memory pipeline.  The TypeScript code is
shallowly embedded: the Weaviate vector store is a list of stored objects,
the uuid and store identifier supplies are fresh counters, backend queries
are explicit function parameters returning `Except`, and each HTTP or
WebSocket handler becomes a pure function on an explicit server state.
ISO timestamp strings are abstracted by their `Date.getTime()` value
(a natural number), which is exactly the quantity the code compares.
-/

namespace LexiScope

/-- The memory type tag of a stored record (`Memory.memoryType` in
src/server/types: `fact | preference | context`). -/
inductive MemoryType
  | fact
  | preference
  | context
deriving DecidableEq, Repr

/-- Identifiers.  `client n` models a uuidv4 value drawn by the server process
(the `uuidv4()` calls), `store n` models an identifier assigned by the Weaviate
store to an inserted object.  UUID generation is idealised as a fresh supply:
distinct draws are distinct values, and the two independent generators never
produce the same value (true of uuidv4 up to negligible collision
probability). -/
inductive MemId
  | client (n : Nat)
  | store (n : Nat)
deriving DecidableEq, Repr

/-- One object of the `HackathonMemory` Weaviate collection, with the
properties inserted by `storeMemory` (src/server/index.ts lines 86 to 95),
the store assigned uuid, and the optional nearText distance metadata. -/
structure StoredObject where
  content : String
  timestamp : Nat
  userId : String
  conversationId : String
  memoryType : MemoryType
  importance : Rat
  uuid : MemId
  distance : Option Rat := none
deriving DecidableEq, Repr

/-- The `Memory` records returned to callers (src/server/types `Memory`,
with `_additional.id` and `_additional.distance` flattened into fields). -/
structure Memory where
  content : String
  timestamp : Nat
  userId : String
  conversationId : String
  memoryType : MemoryType
  importance : Rat
  additionalId : MemId
  additionalDistance : Option Rat := none
deriving DecidableEq, Repr

/-- The result mapping of `searchMemories` (src/server/index.ts lines 118 to
129): copies the properties and sets `_additional.id` and
`_additional.distance` from the object. -/
def toSearchMemory (o : StoredObject) : Memory :=
  { content := o.content, timestamp := o.timestamp, userId := o.userId,
    conversationId := o.conversationId, memoryType := o.memoryType,
    importance := o.importance, additionalId := o.uuid,
    additionalDistance := o.distance }

/-- The result mapping of `getAllMemories` (src/server/index.ts lines 148 to
158): copies the properties and sets only `_additional.id`. -/
def toListMemory (o : StoredObject) : Memory :=
  { content := o.content, timestamp := o.timestamp, userId := o.userId,
    conversationId := o.conversationId, memoryType := o.memoryType,
    importance := o.importance, additionalId := o.uuid,
    additionalDistance := none }

/-- `SimpleMemoryManager.searchMemories` (src/server/index.ts lines 105 to
134).  The Weaviate `nearText` call is the function parameter: it receives the
query and the requested limit (`limit * 2`, per the source comment "Get more
results to filter by userId") and either throws (`Except.error`) or returns a
list of objects.  On success the results are filtered by `userId`, cut to
`limit`, and mapped; on a thrown error the catch block returns `[]`. -/
def searchMemories (nearText : String → Nat → Except String (List StoredObject))
    (query userId : String) (limit : Nat := 5) : List Memory :=
  match nearText query (limit * 2) with
  | Except.error _ => []
  | Except.ok result =>
      ((result.filter (fun o => o.userId == userId)).take limit).map toSearchMemory

/-- The comparator of the sort in `getAllMemories` (src/server/index.ts line
146): `(a, b) => b.timestamp - a.timestamp`, i.e. newest first. -/
def tsDesc (a b : StoredObject) : Prop := b.timestamp ≤ a.timestamp

instance : DecidableRel tsDesc := fun a b => Nat.decLe b.timestamp a.timestamp

instance : IsTotal StoredObject tsDesc := ⟨fun a b => Nat.le_total b.timestamp a.timestamp⟩

instance : IsTrans StoredObject tsDesc := ⟨fun _ _ _ hab hbc => le_trans hbc hab⟩

/-- `SimpleMemoryManager.getAllMemories` (src/server/index.ts lines 136 to
163).  The Weaviate `fetchObjects` call is the function parameter; the source
requests at most 50 objects (`limit: 50, // Limit for hackathon`) with no user
filter, then filters by `userId`, sorts by timestamp descending and maps; a
thrown error is caught and `[]` returned. -/
def getAllMemories (fetchObjects : Nat → Except String (List StoredObject))
    (userId : String) : List Memory :=
  match fetchObjects 50 with
  | Except.error _ => []
  | Except.ok result =>
      (List.insertionSort tsDesc (result.filter (fun o => o.userId == userId))).map
        toListMemory

/-- Semantics of `fetchObjects` with a limit against the whole collection: the
store returns (at most) the first `limit` objects, across all users. -/
def fetchFromCollection (collection : List StoredObject) (limit : Nat) :
    Except String (List StoredObject) :=
  Except.ok (collection.take limit)

/-- The mutable server state: whether the `HackathonMemory` collection exists,
its objects, and the two fresh identifier supplies (Weaviate assigned uuids
and server side uuidv4 draws). -/
structure ServerState where
  collectionExists : Bool
  objects : List StoredObject
  nextStoreUuid : Nat
  nextClientUuid : Nat
deriving DecidableEq, Repr

/-- `SimpleMemoryManager.storeMemory` (src/server/index.ts lines 75 to 103):
draws `memoryId = uuidv4()`, inserts an object carrying only the six
properties (the insert call passes no id, so the store assigns its own uuid),
and returns `memoryId`.  Defaults: `memoryType = context`,
`importance = 0.5`. -/
def storeMemory (s : ServerState) (now : Nat) (content userId conversationId : String)
    (memoryType : MemoryType := MemoryType.context) (importance : Rat := 1/2) :
    MemId × ServerState :=
  (MemId.client s.nextClientUuid,
   { s with
      objects := s.objects ++
        [{ content := content, timestamp := now, userId := userId,
           conversationId := conversationId, memoryType := memoryType,
           importance := importance, uuid := MemId.store s.nextStoreUuid }],
      nextStoreUuid := s.nextStoreUuid + 1,
      nextClientUuid := s.nextClientUuid + 1 })

/-- `SimpleMemoryManager.initSchema` (src/server/index.ts lines 43 to 73): if
the collection exists it is deleted ("Delete existing collection to recreate
with correct schema") and then recreated empty; otherwise it is created. -/
def initSchema (s : ServerState) : ServerState :=
  if s.collectionExists then
    { s with collectionExists := true, objects := [] }
  else
    { s with collectionExists := true }

/-- Read only wrapper pairing `searchMemories` with the (unchanged) server
state: the source method performs a single query and no write. -/
def searchMemoriesOp (s : ServerState)
    (nearText : String → Nat → Except String (List StoredObject))
    (query userId : String) (limit : Nat := 5) : List Memory × ServerState :=
  (searchMemories nearText query userId limit, s)

/-- Read only wrapper pairing `getAllMemories` with the (unchanged) server
state: the source method performs a single query and no write. -/
def getAllMemoriesOp (s : ServerState)
    (fetchObjects : Nat → Except String (List StoredObject))
    (userId : String) : List Memory × ServerState :=
  (getAllMemories fetchObjects userId, s)

/-- The response shape of `SimpleChatAgent.generateResponse`
(src/server/types `ChatResponse`). -/
structure ChatResponse where
  response : String
  usedMemories : List Memory
deriving DecidableEq, Repr

/-- External calls issued by the chat path.  `extractCall` is the concept
extraction entry point `extractConceptualMemories` that the repository invokes
from the realtime agent (src/unnamed/part_001 line 224). -/
inductive ChatEffect
  | searchCall (query userId : String) (limit : Nat)
  | completionCall (systemPrompt userMessage : String)
  | storeCall (content userId conversationId : String)
      (memoryType : MemoryType) (importance : Rat)
  | extractCall (userMessage assistantResponse userId conversationId : String)
deriving DecidableEq, Repr

def isSearchCall : ChatEffect → Bool
  | ChatEffect.searchCall _ _ _ => true
  | _ => false

def isExtractCall : ChatEffect → Bool
  | ChatEffect.extractCall _ _ _ _ => true
  | _ => false

/-- The memory context block of `generateResponse` (src/server/index.ts lines
195 to 197): one `Memory: ...` line per memory, joined by newlines. -/
def memoryContextOf (mems : List Memory) : String :=
  String.intercalate "\n" (mems.map (fun m => "Memory: " ++ m.content))

/-- The system prompt of `generateResponse` (src/server/index.ts line 199):
the base sentence, plus the memory block when the context string is truthy
(nonempty). -/
def systemPromptOf (mems : List Memory) : String :=
  "You are a helpful AI assistant. " ++
    (if memoryContextOf mems == "" then ""
     else "\n\nRelevant memories:\n" ++ memoryContextOf mems)

/-- `SimpleChatAgent.generateResponse` (src/server/index.ts lines 181 to 229).
`completionContent` is `response.choices[0].message.content` of the chat
completion call (`none` models a null content, defaulted to the empty string
by `|| ''`).  When `selectedMemories` is empty a `searchMemories` call with
limit 3 supplies the relevant memories; otherwise the selected ones are used
as is.  The turn is then stored via `storeMemory` with its default type and
importance.  Returns the `ChatResponse`, the trace of external calls, and the
resulting server state. -/
def generateResponse (nearText : String → Nat → Except String (List StoredObject))
    (completionContent : Option String) (s : ServerState) (now : Nat)
    (message userId conversationId : String)
    (selectedMemories : List Memory := []) :
    ChatResponse × List ChatEffect × ServerState :=
  let relevantMemories :=
    if selectedMemories.length = 0 then searchMemories nearText message userId 3
    else selectedMemories
  let searchEffects :=
    if selectedMemories.length = 0 then [ChatEffect.searchCall message userId 3]
    else ([] : List ChatEffect)
  let assistantResponse := completionContent.getD ""
  ({ response := assistantResponse, usedMemories := relevantMemories },
   searchEffects ++
     [ChatEffect.completionCall (systemPromptOf relevantMemories) message,
      ChatEffect.storeCall ("User: " ++ message ++ "\nAssistant: " ++ assistantResponse)
        userId conversationId MemoryType.context (1/2)],
   (storeMemory s now ("User: " ++ message ++ "\nAssistant: " ++ assistantResponse)
      userId conversationId).2)

/-- The request body of POST /api/memories (src/server/types
`MemoryRequest`). -/
structure MemoryRequest where
  content : String
  userId : String
  conversationId : Option String := none
  memoryType : Option MemoryType := none
  importance : Option Rat := none
deriving DecidableEq, Repr

/-- JavaScript `x || fallback` on an optional string: the fallback is taken
when the value is absent (undefined) or the empty string, both falsy. -/
def jsStringOr (x : Option String) (fallback : String) : String :=
  match x with
  | some v => if v == "" then fallback else v
  | none => fallback

/-- The POST /api/memories handler (src/server/index.ts lines 275 to 296):
rejects a falsy content or userId with a 400 (`none`); otherwise calls
`storeMemory` with `conversationId || uuidv4()` and the caller supplied
`memoryType` and `importance` (TypeScript default parameters apply when a
field is absent).  No validation is applied to `importance`. -/
def postMemories (s : ServerState) (now : Nat) (freshConversationId : String)
    (req : MemoryRequest) : Option (MemId × ServerState) :=
  if req.content == "" || req.userId == "" then none
  else
    some (storeMemory s now req.content req.userId
      (jsStringOr req.conversationId freshConversationId)
      (req.memoryType.getD MemoryType.context)
      (req.importance.getD (1/2)))

/-- One realtime session (src/unnamed/part_001 `RealtimeSession`): the
upstream OpenAI socket is abstracted by its open flag. -/
structure RealtimeSession where
  id : String
  wsOpen : Bool
  userId : String
  conversationId : String
  lastUserMessage : Option String := none
deriving DecidableEq, Repr

/-- The `RealtimeAgent` session map (src/unnamed/part_001 line 66), as an
association list. -/
structure RealtimeAgentState where
  sessions : List (String × RealtimeSession)
deriving DecidableEq, Repr

/-- `this.sessions.get(sessionId)`. -/
def lookupSession (a : RealtimeAgentState) (sessionId : String) :
    Option RealtimeSession :=
  (a.sessions.find? (fun p => p.1 == sessionId)).map (fun p => p.2)

/-- `RealtimeAgent.closeSession` (src/unnamed/part_001 lines 262 to 269): when
the session is present, close its upstream socket and delete it from the map;
the Bool records whether an upstream close was issued. -/
def closeSession (a : RealtimeAgentState) (sessionId : String) :
    RealtimeAgentState × Bool :=
  match lookupSession a sessionId with
  | some _ =>
      ({ sessions := a.sessions.filter (fun p => !(p.1 == sessionId)) }, true)
  | none => (a, false)

/-- The server side handler of a client WebSocket `close` event
(src/server/index.ts lines 408 to 410): its body is a single `console.log`; it
does not call `closeSession` and leaves the agent state untouched. -/
def onClientSocketClose (a : RealtimeAgentState) : RealtimeAgentState := a

/-- A tagged concept produced by the extractor. -/
structure Concept where
  content : String
  tag : MemoryType
deriving DecidableEq, Repr

/-- Bool test that `needle` occurs as a contiguous run inside `hay`, on
character lists. -/
def charsContain (needle : List Char) : List Char → Bool
  | [] => needle.isEmpty
  | c :: rest => needle.isPrefixOf (c :: rest) || charsContain needle rest

/-- JavaScript `hay.includes(needle)` on strings. -/
def containsSubstring (hay needle : String) : Bool :=
  charsContain needle.data hay.data

/-- JavaScript `toLowerCase`, applied characterwise over the character list
(the core `String.toLower` runs by well founded recursion, so this structural
version keeps kernel evaluation possible). -/
def lowerStr (s : String) : String := String.mk (s.data.map Char.toLower)

/-- Case insensitive substring overlap between two contents: either lowercased
string occurs inside the other. -/
def overlapsIgnoringCase (a b : String) : Bool :=
  containsSubstring (lowerStr a) (lowerStr b) ||
    containsSubstring (lowerStr b) (lowerStr a)

/-- Modelled from the spec: the concept extraction entry point
(`SimpleMemoryManager.extractConceptualMemories`) is called from the realtime
agent (src/unnamed/part_001 line 224) but its definition is not among the
provided sources.  Per the spec, the Concept Extractor "prompts a language
model to summarize a conversation turn into a short list of tagged concepts,
parses the (possibly malformed) JSON response, and falls back to naive keyword
extraction on parse failure".  The JSON parser and the keyword extractor are
abstract parameters; `turnText` is the conversation turn the keywords are
drawn from, `llmResponse` the model output being parsed. -/
def extractConcepts (parseJson : String → Option (List Concept))
    (naiveKeywords : String → List Concept)
    (turnText llmResponse : String) : List Concept :=
  match parseJson llmResponse with
  | some concepts => concepts
  | none => naiveKeywords turnText

/-- Modelled from the spec: the concept insertion step of
`extractConceptualMemories` is not among the provided sources.  Per the spec,
the Deduplicator "before inserting a new concept, checks case-insensitive
substring overlap against all existing memories for that user"; the concept is
inserted (via the store path) only when no overlap is found.  The Bool records
whether the concept was inserted. -/
def storeConcept (s : ServerState) (now : Nat)
    (conceptContent userId conversationId : String)
    (mt : MemoryType) (imp : Rat) : Bool × ServerState :=
  if (s.objects.filter (fun o => o.userId == userId)).any
      (fun o => overlapsIgnoringCase o.content conceptContent) then
    (false, s)
  else
    (true, (storeMemory s now conceptContent userId conversationId mt imp).2)

/-! ### Concrete data used by the witnesses and counterexamples -/

/-- A server state with an existing, empty collection and fresh counters. -/
def emptyState : ServerState :=
  { collectionExists := true, objects := [], nextStoreUuid := 0, nextClientUuid := 0 }

def demoObjAlice : StoredObject :=
  { content := "likes cats", timestamp := 10, userId := "alice",
    conversationId := "c1", memoryType := MemoryType.fact, importance := 1,
    uuid := MemId.store 0 }

def demoObjBob : StoredObject :=
  { content := "likes dogs", timestamp := 11, userId := "bob",
    conversationId := "c2", memoryType := MemoryType.fact, importance := 1,
    uuid := MemId.store 1 }

/-- A backend whose nearText query returns one object of each of two users. -/
def demoNearText : String → Nat → Except String (List StoredObject) :=
  fun _ _ => Except.ok [demoObjBob, demoObjAlice]

/-- A backend whose fetchObjects call returns one object of each of two
users. -/
def demoFetch : Nat → Except String (List StoredObject) :=
  fun _ => Except.ok [demoObjBob, demoObjAlice]

/-- A backend whose nearText query throws. -/
def failingNearText : String → Nat → Except String (List StoredObject) :=
  fun _ _ => Except.error "store unavailable"

/-- A backend whose fetchObjects call throws. -/
def failingFetch : Nat → Except String (List StoredObject) :=
  fun _ => Except.error "store unavailable"

/-- A JSON parser that fails on every input, modelling a malformed model
response. -/
def demoMalformedParse : String → Option (List Concept) := fun _ => none

/-- A naive keyword extractor used as the fallback in the witness. -/
def demoKeywords : String → List Concept :=
  fun t => [{ content := t, tag := MemoryType.context }]

/-- A server state holding one memory of user alice. -/
def stateWithAlice : ServerState :=
  { collectionExists := true, objects := [demoObjAlice], nextStoreUuid := 1,
    nextClientUuid := 1 }

/-- A POST /api/memories body whose caller supplied importance is 2, outside
the interval [0,1]. -/
def outOfRangeRequest : MemoryRequest :=
  { content := "note", userId := "alice", conversationId := none,
    memoryType := none, importance := some 2 }

/-- The record the store holds after serving `outOfRangeRequest` on the empty
state. -/
def storedOutOfRange : StoredObject :=
  { content := "note", timestamp := 7, userId := "alice",
    conversationId := "c0", memoryType := MemoryType.context, importance := 2,
    uuid := MemId.store 0 }

/-- A realtime session joined by one client. -/
def demoSession : RealtimeSession :=
  { id := "sess1", wsOpen := true, userId := "alice", conversationId := "c1",
    lastUserMessage := none }

/-- A realtime agent state holding the one session. -/
def demoAgent : RealtimeAgentState :=
  { sessions := [("sess1", demoSession)] }

/-- One object of the 51 element demonstration collection, all owned by
alice. -/
def mkAliceObj (i : Nat) : StoredObject :=
  { content := "note", timestamp := i, userId := "alice",
    conversationId := "c", memoryType := MemoryType.context, importance := 1,
    uuid := MemId.store i }

/-- A collection of 51 objects, all owned by alice: one more than the fetch
limit of 50 used by `getAllMemories`. -/
def bigCollection : List StoredObject := (List.range 51).map mkAliceObj

/-- A two object collection used by the listing witness. -/
def smallCollection : List StoredObject := [demoObjBob, demoObjAlice]

/-! ### Theorems -/

/-- C1: every memory returned by `searchMemories(query, userId, limit)` and by
`getAllMemories(userId)` has its userId field equal to the requested userId;
no memory of a different user appears in a search or listing result. -/
theorem search_and_listing_user_scoped
    (nearText : String → Nat → Except String (List StoredObject))
    (fetchObjects : Nat → Except String (List StoredObject))
    (query userId : String) (limit : Nat) :
    (∀ m ∈ searchMemories nearText query userId limit, m.userId = userId) ∧
    (∀ m ∈ getAllMemories fetchObjects userId, m.userId = userId) := by
  constructor
  · intro m hm
    unfold searchMemories at hm
    cases hq : nearText query (limit * 2) with
    | error e => rw [hq] at hm; simp at hm
    | ok result =>
        rw [hq] at hm
        simp only [List.mem_map] at hm
        obtain ⟨o, ho, rfl⟩ := hm
        have h1 : o ∈ result.filter (fun o => o.userId == userId) :=
          List.take_subset _ _ ho
        have h2 := (List.mem_filter.mp h1).2
        simpa [toSearchMemory] using h2
  · intro m hm
    unfold getAllMemories at hm
    cases hq : fetchObjects 50 with
    | error e => rw [hq] at hm; simp at hm
    | ok result =>
        rw [hq] at hm
        simp only [List.mem_map] at hm
        obtain ⟨o, ho, rfl⟩ := hm
        simp only [List.mem_insertionSort] at ho
        have h2 := (List.mem_filter.mp ho).2
        simpa [toListMemory] using h2

/-- Witness for C1: on a concrete backend holding objects of two users, the
record returned for alice indeed carries the userId alice. -/
theorem search_and_listing_user_scoped_witness :
    (toSearchMemory demoObjAlice).userId = "alice" :=
  (search_and_listing_user_scoped demoNearText demoFetch "query" "alice" 5).1
    (toSearchMemory demoObjAlice) (by decide)

/-- C3: concept extraction parses the (possibly malformed) JSON model
response; on parse success the parsed concept list is used, and on any parse
failure it falls back to naive keyword extraction instead of failing, so some
concept list is produced for every turn. -/
theorem extraction_always_produces_concepts
    (parseJson : String → Option (List Concept))
    (naiveKeywords : String → List Concept)
    (turnText llmResponse : String) :
    (parseJson llmResponse = none →
      extractConcepts parseJson naiveKeywords turnText llmResponse =
        naiveKeywords turnText) ∧
    (∀ concepts, parseJson llmResponse = some concepts →
      extractConcepts parseJson naiveKeywords turnText llmResponse = concepts) := by
  constructor
  · intro h; unfold extractConcepts; rw [h]
  · intro cs h; unfold extractConcepts; rw [h]

/-- Witness for C3: with a parser that rejects the malformed response, the
extractor returns the keyword fallback rather than failing. -/
theorem extraction_always_produces_concepts_witness :
    extractConcepts demoMalformedParse demoKeywords "hello turn" "not json" =
      [{ content := "hello turn", tag := MemoryType.context }] :=
  (extraction_always_produces_concepts demoMalformedParse demoKeywords
    "hello turn" "not json").1 rfl

/-- C8: `storeMemory` returns a freshly drawn client uuid that is never passed
to the vector store insert: the inserted object carries a store assigned
identifier distinct from the returned one, and two successful calls (the
second made after the first, when the fresh supply has advanced) never return
the same identifier. -/
theorem storeMemory_fresh_identifier
    (s : ServerState) (now : Nat) (content userId conversationId : String)
    (mt : MemoryType) (imp : Rat) :
    (storeMemory s now content userId conversationId mt imp).1 =
      MemId.client s.nextClientUuid ∧
    (storeMemory s now content userId conversationId mt imp).2.objects =
      s.objects ++
        [{ content := content, timestamp := now, userId := userId,
           conversationId := conversationId, memoryType := mt, importance := imp,
           uuid := MemId.store s.nextStoreUuid }] ∧
    (∀ o ∈ (storeMemory s now content userId conversationId mt imp).2.objects,
        o ∉ s.objects →
        o.uuid ≠ (storeMemory s now content userId conversationId mt imp).1) ∧
    (storeMemory s now content userId conversationId mt imp).2.nextClientUuid =
      s.nextClientUuid + 1 ∧
    (∀ (t : ServerState) (now2 : Nat) (c2 u2 v2 : String) (mt2 : MemoryType)
        (imp2 : Rat), s.nextClientUuid < t.nextClientUuid →
        (storeMemory t now2 c2 u2 v2 mt2 imp2).1 ≠
          (storeMemory s now content userId conversationId mt imp).1) := by
  refine ⟨rfl, rfl, ?_, rfl, ?_⟩
  · intro o ho hnew
    simp only [storeMemory, List.mem_append, List.mem_singleton] at ho
    rcases ho with h | h
    · exact absurd h hnew
    · subst h; simp [storeMemory]
  · intro t now2 c2 u2 v2 mt2 imp2 hlt
    simp only [storeMemory, ne_eq, MemId.client.injEq]
    omega

/-- Witness for C8: two successive stores return distinct identifiers. -/
theorem storeMemory_fresh_identifier_witness :
    (storeMemory (storeMemory emptyState 0 "a" "alice" "c" MemoryType.fact 1).2
        1 "b" "alice" "c" MemoryType.fact 1).1 ≠
      (storeMemory emptyState 0 "a" "alice" "c" MemoryType.fact 1).1 :=
  (storeMemory_fresh_identifier emptyState 0 "a" "alice" "c"
      MemoryType.fact 1).2.2.2.2
    (storeMemory emptyState 0 "a" "alice" "c" MemoryType.fact 1).2
    1 "b" "alice" "c" MemoryType.fact 1 (by decide)

/-- C10: when the underlying vector store query throws, `searchMemories` and
`getAllMemories` catch the error and return the empty list instead of
propagating the failure. -/
theorem backend_failure_returns_empty
    (nearText : String → Nat → Except String (List StoredObject))
    (fetchObjects : Nat → Except String (List StoredObject))
    (query userId : String) (limit : Nat) (err1 err2 : String) :
    (nearText query (limit * 2) = Except.error err1 →
      searchMemories nearText query userId limit = []) ∧
    (fetchObjects 50 = Except.error err2 →
      getAllMemories fetchObjects userId = []) := by
  constructor
  · intro h; unfold searchMemories; rw [h]
  · intro h; unfold getAllMemories; rw [h]

/-- Witness for C10: against a throwing backend both calls return the empty
list. -/
theorem backend_failure_returns_empty_witness :
    searchMemories failingNearText "q" "alice" 5 = [] ∧
    getAllMemories failingFetch "alice" = [] :=
  ⟨(backend_failure_returns_empty failingNearText failingFetch "q" "alice" 5
      "store unavailable" "store unavailable").1 rfl,
   (backend_failure_returns_empty failingNearText failingFetch "q" "alice" 5
      "store unavailable" "store unavailable").2 rfl⟩

/-- C2: a new concept is inserted for a user exactly when no existing memory
of that user has a case insensitive substring overlap with its content; when
an overlap exists the concept is not inserted and the store is unchanged. -/
theorem concept_dedup_gate (s : ServerState) (now : Nat)
    (conceptContent userId conversationId : String) (mt : MemoryType) (imp : Rat) :
    ((¬ ∃ o ∈ s.objects, o.userId = userId ∧
        overlapsIgnoringCase o.content conceptContent = true) →
      ((storeConcept s now conceptContent userId conversationId mt imp).1 = true ∧
       (storeConcept s now conceptContent userId conversationId mt imp).2.objects =
         s.objects ++
           [{ content := conceptContent, timestamp := now, userId := userId,
              conversationId := conversationId, memoryType := mt,
              importance := imp, uuid := MemId.store s.nextStoreUuid }])) ∧
    ((∃ o ∈ s.objects, o.userId = userId ∧
        overlapsIgnoringCase o.content conceptContent = true) →
      ((storeConcept s now conceptContent userId conversationId mt imp).1 = false ∧
       (storeConcept s now conceptContent userId conversationId mt imp).2 = s)) := by
  have hiff : ((s.objects.filter (fun o => o.userId == userId)).any
      (fun o => overlapsIgnoringCase o.content conceptContent) = true) ↔
      ∃ o ∈ s.objects, o.userId = userId ∧
        overlapsIgnoringCase o.content conceptContent = true := by
    constructor
    · intro h
      obtain ⟨o, ho, hq⟩ := List.any_eq_true.mp h
      obtain ⟨hmem, hp⟩ := List.mem_filter.mp ho
      exact ⟨o, hmem, beq_iff_eq.mp hp, hq⟩
    · rintro ⟨o, hmem, hu, hq⟩
      exact List.any_eq_true.mpr
        ⟨o, List.mem_filter.mpr ⟨hmem, beq_iff_eq.mpr hu⟩, hq⟩
  constructor
  · intro hno
    have hb : (s.objects.filter (fun o => o.userId == userId)).any
        (fun o => overlapsIgnoringCase o.content conceptContent) = false := by
      cases hb2 : (s.objects.filter (fun o => o.userId == userId)).any
          (fun o => overlapsIgnoringCase o.content conceptContent)
      · rfl
      · exact absurd (hiff.mp hb2) hno
    constructor
    · simp [storeConcept, hb]
    · simp [storeConcept, hb, storeMemory]
  · intro hex
    have hb := hiff.mpr hex
    constructor
    · simp [storeConcept, hb]
    · simp [storeConcept, hb]

/-- Witness for C2: a concept whose lowercase content already occurs in a
stored memory of the same user is rejected and the state is unchanged. -/
theorem concept_dedup_gate_witness :
    (storeConcept stateWithAlice 12 "LIKES CATS" "alice" "c3"
        MemoryType.preference 1).1 = false ∧
    (storeConcept stateWithAlice 12 "LIKES CATS" "alice" "c3"
        MemoryType.preference 1).2 = stateWithAlice :=
  (concept_dedup_gate stateWithAlice 12 "LIKES CATS" "alice" "c3"
      MemoryType.preference 1).2
    ⟨demoObjAlice, by decide, by decide, by decide⟩

/-- Counterexample to C4 as stated: at a concrete input the chat path issues
search, completion and store calls, but no concept extraction call; extraction
is not triggered on the result of `generateResponse`. -/
theorem generateResponse_no_extraction_counterexample :
    ((generateResponse demoNearText (some "hello there") emptyState 3
        "hi" "alice" "c1" []).2.1.any isExtractCall) = false := by
  decide

/-- C4 amended: with non empty `selectedMemories` no search is performed and
`usedMemories` equals `selectedMemories`; with empty `selectedMemories`,
`usedMemories` equals `searchMemories(message, userId, 3)` and a search call
is issued; in both cases the system prompt built from exactly those memories
is sent to the completion model, and the turn (User plus Assistant text) is
then stored directly as a context memory with the default importance 0.5 — no
concept extraction is invoked on this path. -/
theorem generateResponse_spec
    (nearText : String → Nat → Except String (List StoredObject))
    (completionContent : Option String) (s : ServerState) (now : Nat)
    (message userId conversationId : String) (selectedMemories : List Memory) :
    (selectedMemories ≠ [] →
      ((generateResponse nearText completionContent s now message userId
          conversationId selectedMemories).2.1.any isSearchCall = false ∧
       (generateResponse nearText completionContent s now message userId
          conversationId selectedMemories).1.usedMemories = selectedMemories)) ∧
    (selectedMemories = [] →
      ((generateResponse nearText completionContent s now message userId
          conversationId selectedMemories).1.usedMemories =
         searchMemories nearText message userId 3 ∧
       ChatEffect.searchCall message userId 3 ∈
         (generateResponse nearText completionContent s now message userId
            conversationId selectedMemories).2.1)) ∧
    ChatEffect.completionCall
        (systemPromptOf (generateResponse nearText completionContent s now
            message userId conversationId selectedMemories).1.usedMemories)
        message ∈
      (generateResponse nearText completionContent s now message userId
          conversationId selectedMemories).2.1 ∧
    ChatEffect.storeCall
        ("User: " ++ message ++ "\nAssistant: " ++ completionContent.getD "")
        userId conversationId MemoryType.context (1/2) ∈
      (generateResponse nearText completionContent s now message userId
          conversationId selectedMemories).2.1 ∧
    (generateResponse nearText completionContent s now message userId
        conversationId selectedMemories).2.2.objects =
      s.objects ++
        [{ content := "User: " ++ message ++ "\nAssistant: " ++
             completionContent.getD "",
           timestamp := now, userId := userId, conversationId := conversationId,
           memoryType := MemoryType.context, importance := 1/2,
           uuid := MemId.store s.nextStoreUuid }] ∧
    (generateResponse nearText completionContent s now message userId
        conversationId selectedMemories).2.1.any isExtractCall = false := by
  cases selectedMemories with
  | nil =>
      refine ⟨fun h => absurd rfl h, fun _ => ⟨rfl, ?_⟩, ?_, ?_, rfl, ?_⟩
      · simp [generateResponse]
      · simp [generateResponse]
      · simp [generateResponse]
      · simp [generateResponse, isExtractCall]
  | cons m ms =>
      refine ⟨fun _ => ⟨?_, rfl⟩, fun h => absurd h (by simp), ?_, ?_, rfl, ?_⟩
      · simp [generateResponse, isSearchCall]
      · simp [generateResponse]
      · simp [generateResponse]
      · simp [generateResponse, isExtractCall]

/-- Witness for C4 amended: with no selected memories, the memories used are
exactly the search result. -/
theorem generateResponse_spec_witness :
    (generateResponse demoNearText (some "hello there") emptyState 3
        "hi" "alice" "c1" []).1.usedMemories =
      searchMemories demoNearText "hi" "alice" 3 :=
  ((generateResponse_spec demoNearText (some "hello there") emptyState 3
      "hi" "alice" "c1" []).2.1 rfl).1

/-- Counterexample to C5 as stated: schema initialisation on a state whose
collection already exists deletes every stored record, so initSchema does not
leave existing memory records unchanged. -/
theorem initSchema_wipes_counterexample :
    demoObjAlice ∈ stateWithAlice.objects ∧
    (initSchema stateWithAlice).objects = [] := by
  constructor
  · decide
  · rfl

/-- C5 amended: a memory record is never modified in place; store, search,
listing and chat leave all existing records unchanged (store and chat only
append a new record); but schema initialisation, when the collection already
exists, deletes the entire collection before recreating it (when the
collection does not exist, it deletes nothing). -/
theorem memory_record_frame
    (s : ServerState) (now : Nat) (content userId conversationId : String)
    (mt : MemoryType) (imp : Rat)
    (nearText : String → Nat → Except String (List StoredObject))
    (fetchObjects : Nat → Except String (List StoredObject))
    (completionContent : Option String) (query message : String) (limit : Nat)
    (selectedMemories : List Memory) :
    (storeMemory s now content userId conversationId mt imp).2.objects =
      s.objects ++
        [{ content := content, timestamp := now, userId := userId,
           conversationId := conversationId, memoryType := mt,
           importance := imp, uuid := MemId.store s.nextStoreUuid }] ∧
    (searchMemoriesOp s nearText query userId limit).2 = s ∧
    (getAllMemoriesOp s fetchObjects userId).2 = s ∧
    (generateResponse nearText completionContent s now message userId
        conversationId selectedMemories).2.2.objects =
      s.objects ++
        [{ content := "User: " ++ message ++ "\nAssistant: " ++
             completionContent.getD "",
           timestamp := now, userId := userId, conversationId := conversationId,
           memoryType := MemoryType.context, importance := 1/2,
           uuid := MemId.store s.nextStoreUuid }] ∧
    (s.collectionExists = false → (initSchema s).objects = s.objects) ∧
    (s.collectionExists = true → (initSchema s).objects = []) := by
  refine ⟨rfl, rfl, rfl, rfl, ?_, ?_⟩
  · intro h; simp [initSchema, h]
  · intro h; simp [initSchema, h]

/-- Witness for C5 amended: on a state with an existing collection, schema
initialisation leaves no records. -/
theorem memory_record_frame_witness :
    (initSchema stateWithAlice).objects = [] :=
  (memory_record_frame stateWithAlice 0 "x" "alice" "c" MemoryType.context 1
      demoNearText demoFetch (some "r") "q" "m" 5 []).2.2.2.2.2 rfl

/-- Counterexample to C6 as stated: a caller supplied importance of 2 is
stored unchanged by POST /api/memories, and 2 does not lie in [0,1]. -/
theorem importance_unvalidated_counterexample :
    (postMemories emptyState 7 "c0" outOfRangeRequest).map
        (fun p => p.2.objects.map (fun o => o.importance)) = some [2] ∧
    ¬ ((2 : Rat) ≤ 1) := by
  constructor
  · rfl
  · norm_num

/-- C6 amended: a memory stored after a chat turn carries the default
importance 0.5, which lies in [0,1]; a memory stored via POST /api/memories
carries the caller supplied importance unchanged and unvalidated (0.5 when
the field is absent), so it lies in [0,1] only when the caller value does. -/
theorem importance_paths
    (nearText : String → Nat → Except String (List StoredObject))
    (completionContent : Option String) (s : ServerState) (now : Nat)
    (message userId conversationId freshConversationId : String)
    (selectedMemories : List Memory) (req : MemoryRequest) :
    (∀ o ∈ (generateResponse nearText completionContent s now message userId
        conversationId selectedMemories).2.2.objects,
      o ∈ s.objects ∨ o.importance = 1/2) ∧
    (0 ≤ (1 : Rat)/2 ∧ (1 : Rat)/2 ≤ 1) ∧
    (∀ mid s2, postMemories s now freshConversationId req = some (mid, s2) →
      ∀ o ∈ s2.objects,
        o ∈ s.objects ∨ o.importance = req.importance.getD (1/2)) := by
  refine ⟨?_, ⟨by norm_num, by norm_num⟩, ?_⟩
  · intro o ho
    simp only [generateResponse, storeMemory, List.mem_append,
      List.mem_singleton] at ho
    rcases ho with h | h
    · exact Or.inl h
    · subst h; exact Or.inr rfl
  · intro mid s2 hpost o ho
    unfold postMemories at hpost
    split at hpost
    · simp at hpost
    · injection hpost with h
      have hs2 : s2 = (storeMemory s now req.content req.userId
          (jsStringOr req.conversationId freshConversationId)
          (req.memoryType.getD MemoryType.context)
          (req.importance.getD (1/2))).2 := by rw [h]
      rw [hs2] at ho
      simp only [storeMemory, List.mem_append, List.mem_singleton] at ho
      rcases ho with h2 | h2
      · exact Or.inl h2
      · subst h2; exact Or.inr rfl

/-- Witness for C6 amended: the record stored for the out of range request is
new (not previously stored) and carries exactly the caller supplied
importance. -/
theorem importance_paths_witness :
    storedOutOfRange ∈ emptyState.objects ∨
      storedOutOfRange.importance = outOfRangeRequest.importance.getD (1/2) :=
  (importance_paths demoNearText (some "r") emptyState 7 "m" "alice" "c" "c0"
      [] outOfRangeRequest).2.2 (MemId.client 0)
    (storeMemory emptyState 7 "note" "alice" "c0" MemoryType.context 2).2
    (by decide) storedOutOfRange (by decide)

/-- C7 (code bug): after the client WebSocket of a joined realtime session
closes, the session is still in the RealtimeAgent session map — the server
side close handler only logs and never calls closeSession — although the
provided closeSession would have removed it from the map and closed its
upstream socket. -/
theorem session_leak_on_disconnect :
    lookupSession (onClientSocketClose demoAgent) "sess1" = some demoSession ∧
    (closeSession demoAgent "sess1").1.sessions = [] ∧
    (closeSession demoAgent "sess1").2 = true := by
  refine ⟨by decide, by decide, by decide⟩

/-- C9: `getAllMemories(userId)` draws from at most the first 50 objects of
the whole collection (across all users) before filtering by userId, and
returns the filtered memories sorted by timestamp in descending order (newest
first); consequently on a 51 record collection owned entirely by one user,
that user receives fewer memories than they own. -/
theorem getAllMemories_limit_and_order (collection : List StoredObject)
    (userId : String) :
    (getAllMemories (fetchFromCollection collection) userId ⊆
      (collection.take 50).map toListMemory) ∧
    List.Sorted (fun a b : Memory => b.timestamp ≤ a.timestamp)
      (getAllMemories (fetchFromCollection collection) userId) ∧
    (getAllMemories (fetchFromCollection bigCollection) "alice").length <
      (bigCollection.filter (fun o => o.userId == "alice")).length := by
  have hall : ∀ l : List Nat, ((l.map mkAliceObj).filter
      (fun o => o.userId == "alice")) = l.map mkAliceObj := by
    intro l
    apply List.filter_eq_self.mpr
    intro a ha
    obtain ⟨i, _, rfl⟩ := List.mem_map.mp ha
    simp [mkAliceObj]
  refine ⟨?_, ?_, ?_⟩
  · intro m hm
    simp only [getAllMemories, fetchFromCollection, List.mem_map] at hm
    obtain ⟨o, ho, rfl⟩ := hm
    simp only [List.mem_insertionSort] at ho
    exact List.mem_map.mpr ⟨o, (List.mem_filter.mp ho).1, rfl⟩
  · simp only [getAllMemories, fetchFromCollection]
    exact List.Pairwise.map toListMemory (fun a b h => h)
      (List.sorted_insertionSort tsDesc _)
  · have htake : bigCollection.take 50 = (List.range 50).map mkAliceObj := by
      unfold bigCollection
      rw [← List.map_take, List.take_range]
      norm_num
    simp only [getAllMemories, fetchFromCollection]
    rw [List.length_map, List.length_insertionSort, htake, hall,
      List.length_map, List.length_range]
    unfold bigCollection
    rw [hall, List.length_map, List.length_range]
    norm_num

/-- Witness for C9: a concrete listing result drawn from the first 50 objects
of the collection. -/
theorem getAllMemories_limit_and_order_witness :
    toListMemory demoObjAlice ∈ (smallCollection.take 50).map toListMemory :=
  (getAllMemories_limit_and_order smallCollection "alice").1 (by decide)

end LexiScope
